import Mathlib

/-
  Verification of `source/lib/debug.cpp` (0 A.D. platform-independent debug
  support code) against its natural-language specification.

  Shallow embedding conventions:
  * C machine integers are modelled as `Nat`/`Int`; where a signed-to-unsigned
    conversion matters we take the value modulo 2^64 explicitly.
  * Null pointers are modelled as `Option.none`; `const char*` strings as
    `Option String`.
  * External collaborators that are declared in headers outside this file
    (`fnv_hash`, `debug_resolve_symbol`, `path_name_only`,
    `debug_stl_simplify_name`, `ah_translate`, `ah_display_error`,
    `sys_display_error`, `debug_dump_stack`) are passed in as function or
    value parameters; the code under verification never inspects them beyond
    calling them, so this is faithful.
  * The unbounded `for(;;)` probe loops of the symbol cache are modelled with
    an explicit fuel argument; "the loop terminates with result r" is
    "there is a fuel for which the fuel-indexed function returns `some r`",
    and divergence is "for every fuel the function returns `none`".
-/

namespace DebugCpp

/-! ## TagFilter (`tags`, `num_tags`, `debug_filter_add/remove/clear`)

`debug.cpp` lines 95-139.  The C state is `static u32 tags[MAX_TAGS]` (a
fixed array of 20 hash slots, zero-initialised) together with
`static uint num_tags`.  The FNV hash of the tag string (`fnv_hash`, external
to this file) is applied by the callers before the operations below run, so
the operations are modelled directly on hash values. -/

def MAX_TAGS : Nat := 20

structure TagState where
  tags : List Nat
  num_tags : Nat
deriving DecidableEq

/-- Initial state: static arrays are zero-initialised. -/
def tagInit : TagState := ⟨List.replicate MAX_TAGS 0, 0⟩

/-- `debug_filter_add` (lines 99-116), acting on the already-computed hash.
The returned `Bool` records whether the `debug_warn("increase MAX_TAGS")`
capacity warning fired.  The duplicate scan runs over all `MAX_TAGS` slots,
exactly as the C loop `for(i = 0; i < MAX_TAGS; i++)` does. -/
def debug_filter_add (hash : Nat) (s : TagState) : TagState × Bool :=
  if s.tags.contains hash then (s, false)
  else if s.num_tags = MAX_TAGS then (s, true)
  else (⟨s.tags.set s.num_tags hash, s.num_tags + 1⟩, false)

/-- `debug_filter_remove` (lines 118-133), acting on the already-computed
hash.  The C loop finds the first slot holding the hash, overwrites it with
`tags[MAX_TAGS-1]` (the literal last slot of the array, index 19), and
decrements `num_tags`. -/
def debug_filter_remove (hash : Nat) (s : TagState) : TagState :=
  match s.tags.findIdx? (· = hash) with
  | none => s
  | some i => ⟨s.tags.set i (s.tags.getD (MAX_TAGS - 1) 0), s.num_tags - 1⟩

/-- `debug_filter_clear` (lines 135-139): zeroes all `MAX_TAGS` slots and
does not touch `num_tags`. -/
def debug_filter_clear (s : TagState) : TagState :=
  ⟨List.replicate MAX_TAGS 0, s.num_tags⟩

/-- The set of hashes the filter currently lets through: `filter_allows`
(lines 141-161) scans all `MAX_TAGS` slots for the message's topic hash. -/
def tagEnabled (s : TagState) (hash : Nat) : Bool :=
  s.tags.contains hash

/-- C3 counterexample states: add hashes 1 and 2 (two distinct non-zero FNV
hashes), remove hash 1, then add hash 3. -/
def tagS2 : TagState := (debug_filter_add 2 (debug_filter_add 1 tagInit).1).1

def tagS3 : TagState := debug_filter_remove 1 tagS2

def tagS4 : TagState := (debug_filter_add 3 tagS3).1

/-- A filled filter (20 distinct non-zero hashes, as after 20 adds). -/
def tagFull : TagState := ⟨(List.range MAX_TAGS).map (· + 1), MAX_TAGS⟩

/-! ## ActivityLog (`debug_log`, `debug_log_pos`, `debug_wprintf_mem`)

`debug.cpp` lines 41-74.  The C state is `wchar_t debug_log[LOG_CHARS]`
(zero-initialised) and the cursor `debug_log_pos`.  We model memory as a
total function `Nat → Char` (so that stores past the end of the 16384-unit
buffer remain expressible) and the cursor as the offset
`debug_log_pos - debug_log`.

`debug_wprintf_mem` is modelled on the already-formatted message (the
`fmt`/varargs rendering itself is external).  `vswprintf(dst, n, ...)` is
given C99 semantics: it succeeds and returns the character count exactly
when the message fits in `n` units including the terminator, and returns a
negative value (upon which the C code warns and returns without advancing)
otherwise.  Crucially, the C call site passes the `ssize_t` expression
`chars_left - 2` for the `size_t` parameter `n`, so a negative value wraps
modulo 2^64; `sizeT` models that conversion. -/

def LOG_CHARS : Nat := 16384

def NUL : Char := Char.ofNat 0

def CR : Char := Char.ofNat 13

def LF : Char := Char.ofNat 10

/-- Implicit `ssize_t → size_t` conversion (64-bit platform). -/
def sizeT (i : Int) : Nat := (i % (2 ^ 64 : Int)).toNat

structure LogState where
  mem : Nat → Char
  pos : Nat

/-- Initial state: static `wchar_t` array zero-initialised,
`debug_log_pos = debug_log`. -/
def logInit : LogState := ⟨fun _ => NUL, 0⟩

/-- Store the character list `cs` at offsets `start, start+1, …`. -/
def storeAt (mem : Nat → Char) (start : Nat) (cs : List Char) : Nat → Char :=
  fun i => if start ≤ i ∧ i < start + cs.length then cs.getD (i - start) NUL else mem i

/-- Lines 53-60 of `debug_wprintf_mem`: when fewer than 512 units remain,
copy the upper half of the buffer onto the lower half, zero the upper half,
and pull the cursor back by `LOG_CHARS/2`. -/
def compactIfNeeded (s : LogState) : LogState :=
  if (LOG_CHARS : Int) - (s.pos : Int) < 512 then
    ⟨fun i =>
        if i < LOG_CHARS / 2 then s.mem (i + LOG_CHARS / 2)
        else if i < LOG_CHARS then NUL
        else s.mem i,
      s.pos - LOG_CHARS / 2⟩
  else s

/-- `debug_wprintf_mem` (lines 46-74) on the formatted message `msg`.

Step by step against the source:
* `chars_left = LOG_CHARS - (debug_log_pos - debug_log)` as a signed value;
  `debug_assert(chars_left >= 0)` only warns, so execution continues
  regardless and is modelled as a no-op.
* compact the buffer if `chars_left < 512` (`compactIfNeeded`).
* `vswprintf(debug_log_pos, chars_left-2, …)` — the bound is the STALE
  `chars_left` computed before compaction, converted to `size_t` (`sizeT`).
  Per C99 it fails (negative return) iff the message including terminator
  does not fit; on failure the function warns and returns with the cursor
  unchanged (but with the compaction, if any, already performed).
* on success (`len = msg.length` characters plus terminator written),
  advance the cursor by `len+2` and `wcscpy` the `"\r\n"` terminator (three
  code units `CR LF NUL`) starting two units before the new cursor. -/
def debug_wprintf_mem (msg : List Char) (s : LogState) : LogState :=
  let n : Nat := sizeT ((LOG_CHARS : Int) - (s.pos : Int) - 2)
  let s1 : LogState := compactIfNeeded s
  if msg.length + 1 > n then s1
  else
    ⟨storeAt (storeAt s1.mem s1.pos (msg ++ [NUL])) (s1.pos + msg.length) [CR, LF, NUL],
      s1.pos + msg.length + 2⟩

/-- First message of the C7 failing input: exactly fills the buffer up to
cursor 16383, the largest cursor a single write can produce. -/
def logMsgA : List Char := List.replicate 16381 'a'

/-- Second message of the C7 failing input: longer than the half buffer that
remains after compaction. -/
def logMsgB : List Char := List.replicate 8193 'b'

def logS1 : LogState := debug_wprintf_mem logMsgA logInit

def logS2 : LogState := debug_wprintf_mem logMsgB logS1

/-! ## SymbolCache (`symbol_string_build`, `symbol_string_from_cache`,
`symbol_string_add_to_cache`, `debug_get_symbol_string`)

`debug.cpp` lines 249-439.  The C state is the lazily-allocated hash table
`Symbol* symbols` (2048 slots, a slot is occupied iff its `symbol` field is
non-zero), the insertion counter `total_symbols`, and the bump arena cursor
`string_buf_pos` (lazily allocated `string_buf`, 64 KiB).  Addresses are
modelled as `Nat`, the arena cursor as an offset (`none` = arena not yet
allocated), and a table slot as `Option (Nat × String)`.  `malloc`/`calloc`
are assumed to succeed (their failure paths only warn and are orthogonal to
every claim below).

The two `for(;;)` probe loops have no bound in the source; they are modelled
with explicit fuel (outer `none` = the loop has not finished within that
fuel). -/

def MAX_SYMBOLS : Nat := 2048

def STRING_BUF_SIZE : Nat := 64 * 1024

def STRING_MAX : Nat := 1000

/-- A hash-table slot: `none` models `symbol == 0` (invalid / free). -/
abbrev SymTable := Fin MAX_SYMBOLS → Option (Nat × String)

structure SymState where
  symbols : Option SymTable
  total_symbols : Nat
  string_buf_pos : Option Nat
deriving Inhabited

/-- `hash` (lines 350-354): strip the lower two address bits, reduce
modulo the table size. -/
def symHash (symbol : Nat) : Fin MAX_SYMBOLS :=
  ⟨(symbol >>> 2) % MAX_SYMBOLS, Nat.mod_lt _ (by decide)⟩

/-- `idx = (idx+1) % MAX_SYMBOLS` (lines 376 and 410): the probe step. -/
def probeNext (idx : Fin MAX_SYMBOLS) : Fin MAX_SYMBOLS :=
  ⟨(idx.val + 1) % MAX_SYMBOLS, Nat.mod_lt _ (by decide)⟩

/-- The probe loop of `symbol_string_from_cache` (lines 364-377), with
fuel: `none` = the `for(;;)` loop did not finish within `fuel` steps,
`some none` = returned 0 (free slot reached), `some (some str)` = hit. -/
def lookupFuel (tbl : SymTable) (symbol : Nat) : Nat → Fin MAX_SYMBOLS → Option (Option String)
  | 0, _ => none
  | fuel + 1, idx =>
    match tbl idx with
    | none => some none
    | some c => if c.1 = symbol then some (some c.2) else lookupFuel tbl symbol fuel (probeNext idx)

/-- `symbol_string_from_cache` (lines 358-378): `none` when the table is
not yet allocated, otherwise probe from `hash(symbol)`. -/
def symbol_string_from_cache (fuel : Nat) (s : SymState) (symbol : Nat) :
    Option (Option String) :=
  match s.symbols with
  | none => some none
  | some tbl => lookupFuel tbl symbol fuel (symHash symbol)

/-- The probe loop of `symbol_string_add_to_cache` (lines 400-412): find
the first free slot starting at the hash index. -/
def findFreeFuel (tbl : SymTable) : Nat → Fin MAX_SYMBOLS → Option (Fin MAX_SYMBOLS)
  | 0, _ => none
  | fuel + 1, idx =>
    match tbl idx with
    | none => some idx
    | some _ => findFreeFuel tbl fuel (probeNext idx)

/-- Condition of line 283, `if(!name || !file || !line)`: the external
debug-info resolver is consulted when AT LEAST ONE of name/file/line is
missing (null pointer resp. zero line). -/
def needsResolve (name file : Option String) (line : Int) : Bool :=
  name.isNone || file.isNone || line == 0

/-- Lines 281-297: the resolution step of `symbol_string_build`.
`resolve symbol` yields the `(name_buf, file_buf, line_buf)` contents
produced by the external `debug_resolve_symbol`.  Each resolved value
replaces the corresponding parameter whenever it is non-empty
(resp. non-zero), regardless of whether the caller had supplied one. -/
def resolveFields (resolve : Nat → String × String × Int) (symbol : Nat)
    (name file : Option String) (line : Int) :
    Option String × Option String × Int :=
  if needsResolve name file line then
    let r := resolve symbol
    (if r.1 ≠ "" then some r.1 else name,
     if r.2.1 ≠ "" then some r.2.1 else file,
     if r.2.2 ≠ 0 then r.2.2 else line)
  else (name, file, line)

/-- `%05d` of the line number (field width 5, zero-padded). -/
def pad5 (n : Int) : String :=
  let sign := if n < 0 then "-" else ""
  let mag := toString n.natAbs
  sign ++ String.mk (List.replicate (5 - sign.length - mag.length) '0') ++ mag

/-- `%p` of the address (hexadecimal rendering; the exact platform format
of `%p` is irrelevant to every claim, only its dependence on the address). -/
def ptrStr (symbol : Nat) : String :=
  "0x" ++ String.mk (Nat.toDigits 16 symbol)

/-- Lines 299-319: format the description.  With (post-resolution) file and
line available, `"<basename>:<%05d line> "`; otherwise `"<%p address> "`;
then the symbol name (if any) passed through the external simplifier.
`pno` is the external `path_name_only`, `simplify` the external
`debug_stl_simplify_name`. -/
def symbolDescription (pno simplify : String → String) (symbol : Nat)
    (name file : Option String) (line : Int) : String :=
  let loc :=
    match file with
    | some f => if line ≠ 0 then pno f ++ ":" ++ pad5 line ++ " " else ptrStr symbol ++ " "
    | none => ptrStr symbol ++ " "
  loc ++ (match name with | some n => simplify n | none => "")

/-- `symbol_string_build` (lines 255-320).  Allocates the arena on first
use (cursor 0), fails — RETURNING NULL — when the reserved `STRING_MAX`
would run past the arena end, and otherwise builds the description at the
current cursor (the cursor itself is only advanced later, by
`symbol_string_add_to_cache`). -/
def symbol_string_build (resolve : Nat → String × String × Int)
    (pno simplify : String → String) (s : SymState) (symbol : Nat)
    (name file : Option String) (line : Int) : Option String × SymState :=
  let pos := s.string_buf_pos.getD 0
  let s1 : SymState := ⟨s.symbols, s.total_symbols, some pos⟩
  if STRING_BUF_SIZE ≤ pos + STRING_MAX then (none, s1)
  else
    let f := resolveFields resolve symbol name file line
    (some (symbolDescription pno simplify symbol f.1 f.2.1 f.2.2), s1)

/-- `symbol_string_add_to_cache` (lines 383-419).  Allocates the (zeroed)
table on first use; rejects the insertion when `total_symbols` has reached
`MAX_SYMBOLS` (the string is simply not cached); otherwise probes for a
free slot, commits the entry there and advances the arena cursor past the
committed string. -/
def symbol_string_add_to_cache (fuel : Nat) (string : String) (symbol : Nat)
    (s : SymState) : Option SymState :=
  let tbl : SymTable := s.symbols.getD (fun _ => none)
  if MAX_SYMBOLS ≤ s.total_symbols then some ⟨some tbl, s.total_symbols, s.string_buf_pos⟩
  else
    match findFreeFuel tbl fuel (symHash symbol) with
    | none => none
    | some idx =>
      some ⟨some (Function.update tbl idx (some (symbol, string))),
        s.total_symbols + 1,
        some (s.string_buf_pos.getD 0 + string.length + 1)⟩

/-- `debug_get_symbol_string` (lines 424-439): return the cached string on
a hit; otherwise build (propagating a null build result) and try to cache.
Outer `none` = one of the probe loops has not finished within `fuel`. -/
def debug_get_symbol_string (fuel : Nat) (resolve : Nat → String × String × Int)
    (pno simplify : String → String) (s : SymState) (symbol : Nat)
    (name file : Option String) (line : Int) : Option (Option String × SymState) :=
  match symbol_string_from_cache fuel s symbol with
  | none => none
  | some (some str) => some (some str, s)
  | some none =>
    match symbol_string_build resolve pno simplify s symbol name file line with
    | (none, s1) => some (none, s1)
    | (some str, s1) =>
      match symbol_string_add_to_cache fuel str symbol s1 with
      | none => none
      | some s2 => some (some str, s2)

/-- The description string a cache miss builds, as a function of the
externals and hints (the `STRING_MAX` reservation check aside). -/
def builtString (resolve : Nat → String × String × Int) (pno simplify : String → String)
    (symbol : Nat) (name file : Option String) (line : Int) : String :=
  symbolDescription pno simplify symbol
    (resolveFields resolve symbol name file line).1
    (resolveFields resolve symbol name file line).2.1
    (resolveFields resolve symbol name file line).2.2

/-- A concrete external resolver used by witnesses and counterexamples. -/
def hintResolve : Nat → String × String × Int := fun _ => ("bar", "f.c", 7)

/-- An allocated, empty symbol cache with a fresh arena. -/
def symInitAlloc : SymState := ⟨some (fun _ => none), 0, some 0⟩

/-- An allocated empty cache whose arena cursor is near the end of the
64 KiB arena: the next reservation of `STRING_MAX` bytes does not fit. -/
def exhaustedArena : SymState := ⟨some (fun _ => none), 0, some 64600⟩

/-! ### C6: a completely full hash table

A reachable full configuration: 2048 successful insertions of the distinct
addresses `4*i` (each lands in its home slot `i`, since
`hash(4*i) = (4*i >> 2) % 2048 = i`), each with a short description string,
leaving `total_symbols = MAX_SYMBOLS` and no free slot anywhere. -/

def fullTbl : SymTable := fun i => some (4 * i.val, toString i.val)

def fullState : SymState := ⟨some fullTbl, MAX_SYMBOLS, some 22528⟩

/-! ## ErrorReporter (`should_suppress_error`, `build_error_message`,
`call_display_error`, `carry_out_ErrorReaction`, `debug_display_error`)

`debug.cpp` lines 456-638.  The process-wide state is the sticky
`exit_requested` flag and the `already_in_progress` single-flight guard;
the caller's `u8* suppress` cell is modelled as `Option Nat` (`none` =
null pointer) threaded through the call.  The observable side effects
(debug_wprintf output, crash-log persistence, display-sink invocation,
debugger break, heap-diagnostics toggle) are recorded as an effect list.

External collaborators are parameters: `translate` (`ah_translate`), `pno`
(`path_name_only`), `stackText` (the text `debug_dump_stack` would produce
for this call), `bufOk` (whether a message buffer was obtained; the
heap/alloca fallbacks are environment-dependent), and `ahResult`/
`sysResult` (the decisions `ah_display_error` / `sys_display_error`
return).  The `skip`/`context` parameters only shape the externally
produced stack text and are represented inside `stackText`. -/

/-- Modelled from the spec: the `PolicyDecision` enumeration `ErrorReaction`
is declared in `lib/debug.h`, which is not part of the sources; its members
are taken from their uses in `debug.cpp` (ER_BREAK / ER_SUPPRESS / ER_EXIT /
ER_CONTINUE and the ER_NOT_IMPLEMENTED stub answer of the app hook). -/
inductive ErrorReaction
  | ER_BREAK
  | ER_SUPPRESS
  | ER_EXIT
  | ER_CONTINUE
  | ER_NOT_IMPLEMENTED
deriving DecidableEq

/-- Modelled from the spec: the "suppressed" sentinel value `DEBUG_SUPPRESS`
written into the caller's `u8` suppress cell is declared in `lib/debug.h`
(not in the sources); the code only stores it and compares against it, so
its numeric value is immaterial — any fixed byte value is faithful. -/
def DEBUG_SUPPRESS : Nat := 171

inductive Effect
  | outputWrite (fn_only : String) (line : Int) (description : String)
  | crashlogWrite (text : String)
  | displayCall (text : String) (allow_suppress : Bool)
  | debugBreak
  | heapDisable
deriving DecidableEq

structure ReporterState where
  exit_requested : Bool
  already_in_progress : Bool
deriving DecidableEq

/-- `should_suppress_error` (lines 464-476): note that a NULL suppress
pointer returns `false` immediately — before the sticky `exit_requested`
flag is even consulted. -/
def should_suppress_error (suppress : Option Nat) (exit_requested : Bool) : Bool :=
  match suppress with
  | none => false
  | some v => if v = DEBUG_SUPPRESS then true else if exit_requested then true else false

/-- Line 616, `const bool is_nested = !CAS(&already_in_progress, 0, 1);`:
returns (is_nested, new guard value).  The CAS succeeds iff the guard was
clear; in either case the guard is set afterwards. -/
def casAcquire (already_in_progress : Bool) : Bool × Bool :=
  (already_in_progress, true)

/-- Line 635, `already_in_progress = 0;` — executed by EVERY
`debug_display_error` call that got past the suppression check, nested or
not. -/
def guardRelease (_already_in_progress : Bool) : Bool :=
  false

/-- The `swprintf` header of `build_error_message` (lines 487-493):
description, location and the "Call stack:" banner. -/
def errorHeader (description fn_only : String) (line : Int) (func : String) : String :=
  description ++ "\r\nLocation: " ++ fn_only ++ ":" ++ toString line ++ " (" ++ func
    ++ ")\r\n\r\nCall stack:\r\n\r\n"

/-- The fixed explanatory sentence of the nested branch (lines 509-512). -/
def NESTED_NOTICE : String :=
  "(cannot start a nested stack trace; what probably happened is that "
    ++ "an debug_assert/debug_warn/CHECK_ERR fired during the current trace.)"

/-- `build_error_message` (lines 478-516): static fallback text when no
buffer could be allocated; otherwise header plus either the externally
produced stack trace (outer mode) or the fixed nested notice (nested mode,
because `debug_dump_stack` is not reentrant). -/
def build_error_message (bufOk : Bool) (description fn_only : String) (line : Int)
    (func : String) (stackText : String) (is_nested : Bool) : String :=
  if !bufOk then "(insufficient memory to generate error message)"
  else errorHeader description fn_only line func
    ++ (if !is_nested then stackText else NESTED_NOTICE)

/-- `call_display_error` (lines 518-527): app hook first, platform sink if
the hook answers "not implemented". -/
def call_display_error (ahResult sysResult : ErrorReaction) : ErrorReaction :=
  if ahResult = ErrorReaction.ER_NOT_IMPLEMENTED then sysResult else ahResult

structure CarryOut where
  er : ErrorReaction
  exited : Bool
  exit_requested : Bool
  suppress : Option Nat
  effects : List Effect
deriving DecidableEq

/-- `carry_out_ErrorReaction` (lines 529-564).  `ER_BREAK` triggers a
debugger break and downgrades to `ER_CONTINUE` unless the caller asked for
manual break handling; `ER_SUPPRESS` writes the sentinel into the caller's
cell (the C code dereferences unconditionally; a null cell cannot reach
this point through a display sink honouring `DE_ALLOW_SUPPRESS`, and the
model simply leaves a null cell null) and downgrades; `ER_EXIT` sets the
sticky `exit_requested` flag, disables heap diagnostics and terminates the
process (`exited = true`, the call never returns). -/
def carry_out_ErrorReaction (er : ErrorReaction) (manual_break : Bool)
    (exit_requested : Bool) (suppress : Option Nat) : CarryOut :=
  match er with
  | .ER_BREAK =>
    if !manual_break then ⟨.ER_CONTINUE, false, exit_requested, suppress, [.debugBreak]⟩
    else ⟨.ER_BREAK, false, exit_requested, suppress, []⟩
  | .ER_SUPPRESS =>
    ⟨.ER_CONTINUE, false, exit_requested, suppress.map (fun _ => DEBUG_SUPPRESS), []⟩
  | .ER_EXIT => ⟨.ER_EXIT, true, true, suppress, [.heapDisable]⟩
  | e => ⟨e, false, exit_requested, suppress, []⟩

/-- Line 583-584: missing file becomes "unknown". -/
def fixupFile (file : Option String) : String :=
  match file with
  | none => "unknown"
  | some f => if f = "" then "unknown" else f

/-- Line 585-586: non-positive line becomes 0. -/
def fixupLine (line : Int) : Int :=
  if line ≤ 0 then 0 else line

/-- Line 587-588: missing function name becomes "?". -/
def fixupFunc (func : Option String) : String :=
  match func with
  | none => "?"
  | some f => if f = "" then "?" else f

/-- The result of one `debug_display_error` call: the returned reaction,
whether the process was terminated (`ER_EXIT` path), the process-wide state
afterwards, the caller's suppress cell afterwards, and the recorded
side effects in order. -/
structure DDEResult where
  er : ErrorReaction
  exited : Bool
  state : ReporterState
  suppress : Option Nat
  effects : List Effect
deriving DecidableEq

/-- `debug_display_error` (lines 566-638), step by step:
1. suppression check (returns `ER_CONTINUE`, no effects, nothing changed);
2. translate the description, derive `DE_ALLOW_SUPPRESS` from the presence
   of a suppress cell, fix up file/line/func, take the basename;
3. one-line summary through the tag-filtered output channel
   (`debug_wprintf`, line 595) — recorded as `Effect.outputWrite`;
4. CAS-acquire the single-flight guard (line 616), build the message;
5. persist the crash log only in outer (non-nested) mode (lines 621-622);
6. invoke the display sink (line 624);
7. release the guard (line 635) — before `carry_out_ErrorReaction`, so it
   is released even on the `ER_EXIT` path;
8. carry out the returned reaction. -/
def debug_display_error (translate pno : String → String) (stackText : String)
    (bufOk : Bool) (ahResult sysResult : ErrorReaction)
    (description : String) (manual_break : Bool)
    (file : Option String) (line : Int) (func : Option String)
    (suppress : Option Nat) (s : ReporterState) : DDEResult :=
  if should_suppress_error suppress s.exit_requested then
    ⟨.ER_CONTINUE, false, s, suppress, []⟩
  else
    let description := translate description
    let allow_suppress := suppress.isSome
    let fn_only := pno (fixupFile file)
    let line := fixupLine line
    let func := fixupFunc func
    let acq := casAcquire s.already_in_progress
    let is_nested := acq.1
    let text := build_error_message bufOk description fn_only line func stackText is_nested
    let effects :=
      [Effect.outputWrite fn_only line description]
        ++ (if !is_nested then [Effect.crashlogWrite text] else [])
        ++ [Effect.displayCall text allow_suppress]
    let er0 := call_display_error ahResult sysResult
    let g2 := guardRelease acq.2
    let c := carry_out_ErrorReaction er0 manual_break s.exit_requested suppress
    ⟨c.er, c.exited, ⟨c.exit_requested, g2⟩, c.suppress, effects ++ c.effects⟩

/-! ## Theorems

Helper lemmas first (unfolding and probe-path facts), then the theorems,
counterexamples and witnesses settling the individual claims; each claim
theorem names its claim in its doc comment. -/

/-- C3: `debug_filter_remove` does NOT fill the vacated slot with the last
occupied slot's value: it copies `tags[MAX_TAGS-1]` — the last slot of the
whole array, which holds 0 here — instead of `tags[num_tags-1]`.  After
adding hashes 1 and 2 and removing 1, the vacated slot 0 holds 0 rather
than 2 (the last occupied slot's value), the surviving hash 2 sits at
index 1 ≥ num_tags = 1, and the next `debug_filter_add 3` overwrites
slot 1, displacing hash 2 from the filter entirely.  This refutes the claim
that removal leaves no hole and that a subsequent add displaces no
remaining topic. -/
theorem filter_remove_leaves_hole_and_add_displaces :
    tagS2.tags.getD 1 0 = 2 ∧ tagS2.num_tags = 2 ∧
    tagS3.tags.getD 0 0 = 0 ∧ tagS3.num_tags = 1 ∧
    tagEnabled tagS3 2 = true ∧
    tagEnabled tagS4 2 = false ∧ tagEnabled tagS4 3 = true := by
  decide

/-- C10: `debug_filter_clear` zeroes every slot but leaves `num_tags`
unchanged, so once 20 adds have filled the filter, clearing it reclaims no
capacity: any subsequent add of a fresh non-zero hash is rejected with the
capacity warning and stores nothing. -/
theorem filter_clear_does_not_reclaim_capacity (s : TagState) (h : Nat)
    (hfull : s.num_tags = MAX_TAGS) (hnz : h ≠ 0) :
    (debug_filter_clear s).num_tags = s.num_tags ∧
    (debug_filter_clear s).tags = List.replicate MAX_TAGS 0 ∧
    debug_filter_add h (debug_filter_clear s) = (debug_filter_clear s, true) := by
  refine ⟨rfl, rfl, ?_⟩
  simp [debug_filter_add, debug_filter_clear, hfull, List.mem_replicate, hnz, MAX_TAGS]

theorem filter_clear_does_not_reclaim_capacity_witness :
    (debug_filter_clear tagFull).num_tags = tagFull.num_tags ∧
    (debug_filter_clear tagFull).tags = List.replicate MAX_TAGS 0 ∧
    debug_filter_add 99 (debug_filter_clear tagFull) = (debug_filter_clear tagFull, true) :=
  filter_clear_does_not_reclaim_capacity tagFull 99 rfl (by decide)

/-- A successful append writes the message, terminator included, at the
(possibly compacted) cursor and advances it by `msg.length + 2`. -/
theorem debug_wprintf_mem_fits (msg : List Char) (s : LogState)
    (hfit : msg.length + 1 ≤ sizeT ((LOG_CHARS : Int) - (s.pos : Int) - 2)) :
    debug_wprintf_mem msg s =
      ⟨storeAt (storeAt (compactIfNeeded s).mem (compactIfNeeded s).pos (msg ++ [NUL]))
          ((compactIfNeeded s).pos + msg.length) [CR, LF, NUL],
        (compactIfNeeded s).pos + msg.length + 2⟩ := by
  simp only [debug_wprintf_mem]
  rw [if_neg (by omega)]

theorem compactIfNeeded_skip (s : LogState)
    (h : (512 : Int) ≤ (LOG_CHARS : Int) - (s.pos : Int)) :
    compactIfNeeded s = s := by
  simp only [compactIfNeeded]
  rw [if_neg (by omega)]

theorem compactIfNeeded_fire (s : LogState)
    (h : (LOG_CHARS : Int) - (s.pos : Int) < 512) :
    compactIfNeeded s =
      ⟨fun i =>
          if i < LOG_CHARS / 2 then s.mem (i + LOG_CHARS / 2)
          else if i < LOG_CHARS then NUL
          else s.mem i,
        s.pos - LOG_CHARS / 2⟩ := by
  simp only [compactIfNeeded]
  rw [if_pos h]

/-- C7: the append bound does NOT keep every write inside the buffer.  After
a first (in-bounds) append leaves the cursor at 16383, only one unit
remains; the next append compacts (cursor 8191) but then passes the stale
`chars_left - 2 = -1` to `vswprintf`, which converts to `size_t`
18446744073709551614... i.e. 2^64-1, so an 8193-character message is
accepted and written: the line terminator lands at offsets 16384-16386 —
outside the 16384-unit buffer — and the cursor ends at 16386 > LOG_CHARS.
This refutes "every append keeps the write cursor within capacity and
writes entirely inside the buffer" and "total buffered size never exceeds
C"; it contradicts the code's own comments "we still protect against
overflow below" (line 52) and "safe" (line 73). -/
theorem wprintf_mem_overflows_buffer :
    logS1.pos = 16383 ∧
    logS2.pos = 16386 ∧
    LOG_CHARS < logS2.pos ∧
    logS2.mem 16384 = CR ∧ logS2.mem 16385 = LF := by
  have hA : logMsgA.length = 16381 := by rw [logMsgA, List.length_replicate]
  have hB : logMsgB.length = 8193 := by rw [logMsgB, List.length_replicate]
  have hc1 : compactIfNeeded logInit = logInit :=
    compactIfNeeded_skip _ (by norm_num [logInit, LOG_CHARS])
  have hfit1 : logMsgA.length + 1 ≤ sizeT ((LOG_CHARS : Int) - (logInit.pos : Int) - 2) := by
    rw [hA]; decide
  have hpos1 : logS1.pos = 16383 := by
    rw [logS1, debug_wprintf_mem_fits _ _ hfit1, hc1]
    show logInit.pos + logMsgA.length + 2 = 16383
    rw [hA]; decide
  have hfit2 : logMsgB.length + 1 ≤ sizeT ((LOG_CHARS : Int) - (logS1.pos : Int) - 2) := by
    rw [hB, hpos1]; decide
  have hcpos : (compactIfNeeded logS1).pos = 8191 := by
    rw [compactIfNeeded_fire _ (by rw [hpos1]; norm_num [LOG_CHARS])]
    show logS1.pos - LOG_CHARS / 2 = 8191
    rw [hpos1]; decide
  have h2 : logS2 =
      ⟨storeAt (storeAt (compactIfNeeded logS1).mem 8191 (logMsgB ++ [NUL]))
          (8191 + 8193) [CR, LF, NUL], 8191 + 8193 + 2⟩ := by
    rw [logS2, debug_wprintf_mem_fits _ _ hfit2, hcpos, hB]
  refine ⟨hpos1, by rw [h2], by rw [h2]; norm_num [LOG_CHARS], ?_, ?_⟩ <;>
    · rw [h2]
      simp [storeAt]

/-- When the arena reservation fits, `symbol_string_build` succeeds and
returns the built description. -/
theorem symbol_string_build_ok (resolve : Nat → String × String × Int)
    (pno simplify : String → String) (s : SymState) (symbol : Nat)
    (name file : Option String) (line : Int)
    (harena : s.string_buf_pos.getD 0 + STRING_MAX < STRING_BUF_SIZE) :
    symbol_string_build resolve pno simplify s symbol name file line =
      (some (builtString resolve pno simplify symbol name file line),
        ⟨s.symbols, s.total_symbols, some (s.string_buf_pos.getD 0)⟩) := by
  simp only [symbol_string_build, builtString]
  rw [if_neg (by omega)]

/-- When the arena reservation does not fit, `symbol_string_build` returns
null. -/
theorem symbol_string_build_exhausted (resolve : Nat → String × String × Int)
    (pno simplify : String → String) (s : SymState) (symbol : Nat)
    (name file : Option String) (line : Int)
    (hfull : STRING_BUF_SIZE ≤ s.string_buf_pos.getD 0 + STRING_MAX) :
    symbol_string_build resolve pno simplify s symbol name file line =
      (none, ⟨s.symbols, s.total_symbols, some (s.string_buf_pos.getD 0)⟩) := by
  simp only [symbol_string_build]
  rw [if_pos hfull]

/-- Unfolding `debug_get_symbol_string` on a terminating cache miss. -/
theorem debug_get_symbol_string_miss (fuel : Nat) (resolve : Nat → String × String × Int)
    (pno simplify : String → String) (s : SymState) (symbol : Nat)
    (name file : Option String) (line : Int) (tbl : SymTable)
    (htbl : s.symbols = some tbl)
    (hmiss : lookupFuel tbl symbol fuel (symHash symbol) = some none) :
    debug_get_symbol_string fuel resolve pno simplify s symbol name file line =
      (match symbol_string_build resolve pno simplify s symbol name file line with
       | (none, s1) => some (none, s1)
       | (some str, s1) =>
         match symbol_string_add_to_cache fuel str symbol s1 with
         | none => none
         | some s2 => some (some str, s2)) := by
  simp only [debug_get_symbol_string, symbol_string_from_cache, htbl, hmiss]

/-- Unfolding `debug_get_symbol_string` on a cache hit. -/
theorem debug_get_symbol_string_hit (fuel : Nat) (resolve : Nat → String × String × Int)
    (pno simplify : String → String) (s : SymState) (symbol : Nat)
    (name file : Option String) (line : Int) (tbl : SymTable) (str : String)
    (htbl : s.symbols = some tbl)
    (hhit : lookupFuel tbl symbol fuel (symHash symbol) = some (some str)) :
    debug_get_symbol_string fuel resolve pno simplify s symbol name file line
      = some (some str, s) := by
  simp only [debug_get_symbol_string, symbol_string_from_cache, htbl, hhit]

/-- Successful insertion: under the capacity guard, with a free slot found,
the entry is committed and the arena cursor advanced. -/
theorem symbol_string_add_ok (fuel : Nat) (str : String) (symbol : Nat)
    (s : SymState) (tbl : SymTable) (j : Fin MAX_SYMBOLS)
    (htbl : s.symbols = some tbl)
    (hroom : s.total_symbols < MAX_SYMBOLS)
    (hf : findFreeFuel tbl fuel (symHash symbol) = some j) :
    symbol_string_add_to_cache fuel str symbol s =
      some ⟨some (Function.update tbl j (some (symbol, str))), s.total_symbols + 1,
        some (s.string_buf_pos.getD 0 + str.length + 1)⟩ := by
  simp only [symbol_string_add_to_cache, htbl, Option.getD_some]
  rw [if_neg (by omega), hf]

/-- Key linear-probing fact: if the probe for `symbol` terminates with a
miss, then the insertion probe terminates on a free slot `j` (within the
same fuel), and after committing `(symbol, str)` at `j` the lookup probe
terminates with a hit on exactly `str`.  Proof by induction along the probe
path: the miss probe stops at the FIRST free slot from the hash index, which
is precisely the slot insertion fills, and every slot it crosses is occupied
by a different address, which the insertion leaves untouched. -/
theorem lookupFuel_insert (tbl : SymTable) (symbol : Nat) (str : String) :
    ∀ (fuel : Nat) (idx : Fin MAX_SYMBOLS),
      lookupFuel tbl symbol fuel idx = some none →
      ∃ j, findFreeFuel tbl fuel idx = some j ∧ tbl j = none ∧
        lookupFuel (Function.update tbl j (some (symbol, str))) symbol fuel idx
          = some (some str) := by
  intro fuel
  induction fuel with
  | zero => intro idx h; exact absurd h (by simp [lookupFuel])
  | succ fuel ih =>
    intro idx h
    cases htbl : tbl idx with
    | none =>
      refine ⟨idx, by simp [findFreeFuel, htbl], htbl, ?_⟩
      simp [lookupFuel, Function.update_same]
    | some c =>
      simp only [lookupFuel, htbl] at h
      by_cases hc : c.1 = symbol
      · simp [hc] at h
      · rw [if_neg hc] at h
        obtain ⟨j, hf, hj, hl⟩ := ih (probeNext idx) h
        have hne : idx ≠ j := by
          intro he
          rw [he, hj] at htbl
          simp at htbl
        refine ⟨j, ?_, hj, ?_⟩
        · simp only [findFreeFuel, htbl]
          exact hf
        · simp only [lookupFuel, Function.update_noteq hne, htbl]
          rw [if_neg hc]
          exact hl

/-- C9: two `debug_get_symbol_string` calls on the same uncached address,
the cache not being full and the arena not exhausted, return the identical
string: the first call builds and caches `str`; the second call — with
arbitrary different hint arguments and even different external resolver /
formatter behaviour — hits the cache and returns the very same stored
string, leaving the state untouched. -/
theorem get_symbol_string_second_call_identical
    (resolve resolve2 : Nat → String × String × Int)
    (pno pno2 simplify simplify2 : String → String)
    (s : SymState) (tbl : SymTable) (symbol : Nat)
    (name file name2 file2 : Option String) (line line2 : Int)
    (htbl : s.symbols = some tbl)
    (hmiss : lookupFuel tbl symbol MAX_SYMBOLS (symHash symbol) = some none)
    (harena : s.string_buf_pos.getD 0 + STRING_MAX < STRING_BUF_SIZE)
    (hroom : s.total_symbols < MAX_SYMBOLS) :
    ∃ str s2,
      debug_get_symbol_string MAX_SYMBOLS resolve pno simplify s symbol name file line
        = some (some str, s2) ∧
      debug_get_symbol_string MAX_SYMBOLS resolve2 pno2 simplify2 s2 symbol name2 file2 line2
        = some (some str, s2) := by
  obtain ⟨j, hf, hj, hl⟩ :=
    lookupFuel_insert tbl symbol (builtString resolve pno simplify symbol name file line)
      MAX_SYMBOLS (symHash symbol) hmiss
  refine ⟨builtString resolve pno simplify symbol name file line,
    ⟨some (Function.update tbl j
        (some (symbol, builtString resolve pno simplify symbol name file line))),
      s.total_symbols + 1,
      some (s.string_buf_pos.getD 0
        + (builtString resolve pno simplify symbol name file line).length + 1)⟩, ?_, ?_⟩
  · rw [debug_get_symbol_string_miss MAX_SYMBOLS resolve pno simplify s symbol
        name file line tbl htbl hmiss,
      symbol_string_build_ok resolve pno simplify s symbol name file line harena]
    dsimp only
    rw [symbol_string_add_ok MAX_SYMBOLS
        (builtString resolve pno simplify symbol name file line) symbol
        ⟨s.symbols, s.total_symbols, some (s.string_buf_pos.getD 0)⟩ tbl j htbl hroom hf]
    rfl
  · exact debug_get_symbol_string_hit MAX_SYMBOLS resolve2 pno2 simplify2 _ symbol
      name2 file2 line2 _ _ rfl hl

/-- Witness for C9 at a concrete input: address 20 in a freshly allocated
cache, with completely different hints and externals on the second call. -/
theorem get_symbol_string_second_call_identical_witness :
    ∃ str s2,
      debug_get_symbol_string MAX_SYMBOLS hintResolve id id symInitAlloc 20 none none 0
        = some (some str, s2) ∧
      debug_get_symbol_string MAX_SYMBOLS (fun _ => ("", "", 0)) id id s2 20
          (some "other") (some "o.c") 9
        = some (some str, s2) :=
  get_symbol_string_second_call_identical hintResolve (fun _ => ("", "", 0)) id id id id
    symInitAlloc (fun _ => none) 20 none none (some "other") (some "o.c") 0 9
    rfl rfl (by decide) (by decide)

/-- C5 counterexample: with the arena cursor at 64600 (so the `STRING_MAX`
reservation would run past `STRING_BUF_SIZE`), `debug_get_symbol_string` of
the uncached address 100 returns NULL — `symbol_string_build` bails out
with `WARN_ERR(ERR_LIMIT); return 0;` (lines 274-278) and
`debug_get_symbol_string` forwards the null (lines 433-434).  The claim
says the built description string is still returned to the caller; in fact
no description is built or returned at all. -/
theorem arena_exhaustion_cex :
    (debug_get_symbol_string 1 hintResolve id id exhaustedArena 100
        (some "known") none 0).map Prod.fst = some none := by
  rfl

/-- C5 amended: when the arena's fixed capacity would be exceeded on a
cache miss, `debug_get_symbol_string` returns NULL (no description) to the
caller and caches nothing — the state is unchanged except that the arena is
(idempotently) marked allocated. -/
theorem arena_exhaustion_returns_no_string (fuel : Nat)
    (resolve : Nat → String × String × Int) (pno simplify : String → String)
    (s : SymState) (tbl : SymTable) (symbol : Nat)
    (name file : Option String) (line : Int)
    (htbl : s.symbols = some tbl)
    (hmiss : lookupFuel tbl symbol fuel (symHash symbol) = some none)
    (hfull : STRING_BUF_SIZE ≤ s.string_buf_pos.getD 0 + STRING_MAX) :
    debug_get_symbol_string fuel resolve pno simplify s symbol name file line
      = some (none, ⟨s.symbols, s.total_symbols, some (s.string_buf_pos.getD 0)⟩) := by
  rw [debug_get_symbol_string_miss fuel resolve pno simplify s symbol name file line
      tbl htbl hmiss,
    symbol_string_build_exhausted resolve pno simplify s symbol name file line hfull]

theorem arena_exhaustion_returns_no_string_witness :
    debug_get_symbol_string 2 hintResolve id id exhaustedArena 104 none none 0
      = some (none, exhaustedArena) :=
  arena_exhaustion_returns_no_string 2 hintResolve id id exhaustedArena
    (fun _ => none) 104 none none 0 rfl rfl (by decide)

/-- The lookup probe over the full table never terminates for the absent
address 8192: every slot is occupied (so the `if(!c->symbol) return 0;`
exit is never taken) and no slot matches (every stored address is < 8192),
so the `for(;;)` loop of `symbol_string_from_cache` runs forever. -/
theorem lookupFuel_fullTbl_diverges (fuel : Nat) :
    ∀ idx, lookupFuel fullTbl 8192 fuel idx = none := by
  induction fuel with
  | zero => intro idx; rfl
  | succ fuel ih =>
    intro idx
    have hlt : idx.val < MAX_SYMBOLS := idx.isLt
    have hne : ¬(4 * idx.val = 8192) := by
      simp only [MAX_SYMBOLS] at hlt
      omega
    simp only [lookupFuel, fullTbl]
    rw [if_neg hne]
    exact ih _

/-- C6: once the symbol hash table has reached its fixed capacity
(`total_symbols = MAX_SYMBOLS = 2048`, all slots occupied),
`debug_get_symbol_string` of a brand-new address does NOT terminate: for
every fuel the probe loop is still running, so no freshly built string is
ever returned (first conjunct).  Lookups of already-cached addresses still
terminate with their original stored strings (second conjunct, address 20
stored as "5" in its home slot).  The `total_symbols >= MAX_SYMBOLS` guard
of `symbol_string_add_to_cache` (lines 393-396), whose comment announces
"guard against infinite loop below", only protects the insertion loop — the
lookup loop that `debug_get_symbol_string` runs FIRST has no such guard and
hangs before the build/skip-caching path can be reached. -/
theorem get_symbol_string_full_table_nontermination :
    (∀ (fuel : Nat) (resolve : Nat → String × String × Int)
       (pno simplify : String → String) (name file : Option String) (line : Int),
       debug_get_symbol_string fuel resolve pno simplify fullState 8192 name file line
         = none)
    ∧ (∀ (resolve : Nat → String × String × Int) (pno simplify : String → String)
         (name file : Option String) (line : Int),
         debug_get_symbol_string MAX_SYMBOLS resolve pno simplify fullState 20 name file line
           = some (some "5", fullState)) := by
  constructor
  · intro fuel resolve pno simplify name file line
    simp only [debug_get_symbol_string, symbol_string_from_cache, fullState,
      lookupFuel_fullTbl_diverges fuel (symHash 8192)]
  · intro resolve pno simplify name file line
    rfl

/-- C4 counterexample: the caller supplies the name `"foo"` (but no file
and no line).  Because the condition on line 283 is
`if(!name || !file || !line)` — at least ONE missing, not all three — the
external resolver IS consulted even though a name was supplied, and because
lines 291-296 overwrite each parameter whenever the resolver's value is
non-empty, the caller's name `"foo"` is replaced by the resolver's `"bar"`:
the built description is `"f.c:00007 bar"` and `"foo"` appears nowhere in
it.  This refutes both halves of the claim (resolver consulted only when
nothing was supplied; caller-supplied fields never overwritten). -/
theorem resolver_consulted_despite_supplied_name :
    needsResolve (some "foo") none 0 = true ∧
    (symbol_string_build hintResolve id id ⟨none, 0, none⟩ 4660 (some "foo") none 0).1
      = some "f.c:00007 bar" := by
  exact ⟨rfl, by decide⟩

/-- C4 amended: the resolver is consulted only when at least one of
name/file/line is missing.  In particular (first two conjuncts) when the
caller supplies all three, the resolver is not consulted at all — the built
description is a function of the caller's data alone, for EVERY resolver —
and (third conjunct) whenever the resolver is consulted but returns an
empty name, the caller's name field (supplied or not) is preserved. -/
theorem resolver_respects_complete_hints (resolve : Nat → String × String × Int)
    (pno simplify : String → String) (symbol : Nat) (s : SymState)
    (nm fl : String) (line : Int) (hline : line ≠ 0)
    (harena : s.string_buf_pos.getD 0 + STRING_MAX < STRING_BUF_SIZE) :
    needsResolve (some nm) (some fl) line = false
    ∧ (symbol_string_build resolve pno simplify s symbol (some nm) (some fl) line).1
        = some (symbolDescription pno simplify symbol (some nm) (some fl) line)
    ∧ ∀ (name file : Option String) (l : Int), (resolve symbol).1 = "" →
        (resolveFields resolve symbol name file l).1 = name := by
  have hneeds : needsResolve (some nm) (some fl) line = false := by
    simp [needsResolve, hline]
  have hr : resolveFields resolve symbol (some nm) (some fl) line
      = (some nm, some fl, line) := by
    simp [resolveFields, hneeds]
  refine ⟨hneeds, ?_, ?_⟩
  · rw [symbol_string_build_ok resolve pno simplify s symbol (some nm) (some fl) line harena]
    simp [builtString, hr]
  · intro name file l hempty
    by_cases hn : needsResolve name file l
    · simp [resolveFields, hn, hempty]
    · simp [resolveFields, hn]

theorem resolver_respects_complete_hints_witness :
    needsResolve (some "foo") (some "a/b.c") 3 = false
    ∧ (symbol_string_build hintResolve id id ⟨none, 0, none⟩ 4660
          (some "foo") (some "a/b.c") 3).1
        = some (symbolDescription id id 4660 (some "foo") (some "a/b.c") 3)
    ∧ ∀ (name file : Option String) (l : Int), (hintResolve 4660).1 = "" →
        (resolveFields hintResolve 4660 name file l).1 = name :=
  resolver_respects_complete_hints hintResolve id id 4660 ⟨none, 0, none⟩
    "foo" "a/b.c" 3 (by decide) (by decide)

/-- No branch of `carry_out_ErrorReaction` ever writes a crash log. -/
theorem carry_out_no_crashlog (er : ErrorReaction) (mb e : Bool) (su : Option Nat)
    (t : String) :
    Effect.crashlogWrite t ∉ (carry_out_ErrorReaction er mb e su).effects := by
  cases er <;> cases mb <;> simp [carry_out_ErrorReaction]

/-- C8: a call whose suppress cell is pre-set to the `DEBUG_SUPPRESS`
sentinel short-circuits at `should_suppress_error`: it returns
`ER_CONTINUE`, terminates nothing, performs no output write, no crash-log
persistence and no display-sink call (empty effect list), and leaves both
the process-wide state and the cell untouched — for every environment,
description, location and prior state. -/
theorem suppress_sentinel_short_circuit (translate pno : String → String)
    (stackText : String) (bufOk : Bool) (ahResult sysResult : ErrorReaction)
    (description : String) (manual_break : Bool) (file : Option String)
    (line : Int) (func : Option String) (s : ReporterState) :
    debug_display_error translate pno stackText bufOk ahResult sysResult description
        manual_break file line func (some DEBUG_SUPPRESS) s
      = ⟨.ER_CONTINUE, false, s, some DEBUG_SUPPRESS, []⟩ := by
  simp [debug_display_error, should_suppress_error]

/-- C1 counterexample: after the sticky `exit_requested` flag is set, a
`debug_display_error` call whose caller supplied NO suppress reference
(null pointer) is NOT short-circuited: `should_suppress_error` (line
466-467) returns false for a null pointer before ever consulting
`exit_requested`, so the call runs the full reporting path and produces
side effects (here: output write, crash log, display call) instead of
"returning ER_CONTINUE immediately with no further effect, regardless of
whether the caller supplied a suppress reference". -/
theorem exit_sticky_null_suppress_cex :
    (debug_display_error id id "###STACK###" true ErrorReaction.ER_NOT_IMPLEMENTED
        ErrorReaction.ER_CONTINUE "boom" true (some "a/b.cpp") 3 (some "f")
        none ⟨true, false⟩).effects ≠ [] := by
  decide

/-- C1 amended: exit stickiness holds for every call that DOES supply a
suppress reference (whatever value the cell holds): once `exit_requested`
is set, such a call returns `ER_CONTINUE` immediately with no side effects
and no state change.  (A call with a null suppress reference is not
covered: it proceeds with a full report, per the counterexample.) -/
theorem exit_sticky_with_suppress_reference (translate pno : String → String)
    (stackText : String) (bufOk : Bool) (ahResult sysResult : ErrorReaction)
    (description : String) (manual_break : Bool) (file : Option String)
    (line : Int) (func : Option String) (v : Nat) (g : Bool) :
    debug_display_error translate pno stackText bufOk ahResult sysResult description
        manual_break file line func (some v) ⟨true, g⟩
      = ⟨.ER_CONTINUE, false, ⟨true, g⟩, some v, []⟩ := by
  simp [debug_display_error, should_suppress_error]

/-- C2 counterexample, at the level of the guard protocol every
`debug_display_error` call executes (`casAcquire` on entry, line 616;
`guardRelease` on completion, line 635).  Trace: the outer call acquires
the clear guard (not nested); call A starts while the outer is in progress
(nested, as claimed); call A completes and — per line 635, which every call
executes — CLEARS the guard while the outer call is still building its
report; call B then starts, still before the outer call completes, and the
CAS now SUCCEEDS: B is treated as an outer report (`is_nested = false`) and
will build a full stack trace concurrently with the outer call's one.  This
refutes "every other debug_display_error call started before the outer one
completes proceeds in degraded nested mode" and "at no time are two reports
building a full stack trace concurrently". -/
theorem nested_guard_early_release_cex :
    (casAcquire false).1 = false ∧
    (casAcquire (casAcquire false).2).1 = true ∧
    (casAcquire (guardRelease (casAcquire (casAcquire false).2).2)).1 = false := by
  decide

/-- C2 amended: a call that starts while the guard is held runs in degraded
nested mode — its displayed text is the header plus the fixed nested notice
(no stack trace), it performs no crash-log write — and the guard is clear
after it completes; a call that starts with the guard clear is an outer
report — it persists the header-plus-stack-trace text to the crash log —
and the guard is clear after it completes as well (which is why, per the
counterexample, a nested call's completion can prematurely re-arm a
still-running outer report's guard). -/
theorem nested_report_degraded_and_guard_released (translate pno : String → String)
    (stackText : String) (ahResult sysResult : ErrorReaction) (description : String)
    (manual_break : Bool) (file : Option String) (line : Int) (func : Option String) :
    ((debug_display_error translate pno stackText true ahResult sysResult description
          manual_break file line func none ⟨false, true⟩).state.already_in_progress
        = false
      ∧ (∀ t, Effect.crashlogWrite t ∉
          (debug_display_error translate pno stackText true ahResult sysResult description
            manual_break file line func none ⟨false, true⟩).effects)
      ∧ Effect.displayCall
            (errorHeader (translate description) (pno (fixupFile file)) (fixupLine line)
                (fixupFunc func) ++ NESTED_NOTICE) false
          ∈ (debug_display_error translate pno stackText true ahResult sysResult description
              manual_break file line func none ⟨false, true⟩).effects)
    ∧ (Effect.crashlogWrite
          (errorHeader (translate description) (pno (fixupFile file)) (fixupLine line)
              (fixupFunc func) ++ stackText)
        ∈ (debug_display_error translate pno stackText true ahResult sysResult description
            manual_break file line func none ⟨false, false⟩).effects
      ∧ (debug_display_error translate pno stackText true ahResult sysResult description
          manual_break file line func none ⟨false, false⟩).state.already_in_progress
        = false) := by
  refine ⟨⟨?_, ?_, ?_⟩, ?_, ?_⟩
  · simp [debug_display_error, should_suppress_error, casAcquire, guardRelease]
  · intro t
    simp [debug_display_error, should_suppress_error, casAcquire, build_error_message,
      carry_out_no_crashlog]
  · simp [debug_display_error, should_suppress_error, casAcquire, build_error_message]
  · simp [debug_display_error, should_suppress_error, casAcquire, build_error_message]
  · simp [debug_display_error, should_suppress_error, casAcquire, guardRelease]

end DebugCpp
